import Mathlib

/-!
Shallow embedding of the update-coordination core of the subway e-ink
tracker (src/subway_service.py, src/weather_service.py, src/runner.py,
src/display.py), together with theorems settling the specification claims.

Conventions of the embedding:
* Python `time.time()` timestamps are modelled as `Int` seconds; the
  wall-clock minute (`datetime.now().minute`) is a separate `Nat` argument.
* Fallible calls (network fetches, the display write) are modelled as
  explicit `Except String _` arguments threaded into the step functions;
  `Except.error` is a raised exception at that call site.
* Python truthiness: `not x` on an `Optional` dataclass/list/dict is
  modelled per CPython semantics at each site (noted in comments).
-/

/-! ## src/subway_service.py — data model -/

/-- The `TrainArrival` dataclass (src/subway_service.py lines 12-23). -/
structure TrainArrival where
  minutes_until_arrival : Int
  arrival_time : String
  train_id : String
  route_id : String
deriving DecidableEq, Repr

instance : Inhabited TrainArrival := ⟨⟨0, "", "", ""⟩⟩

/-- Model of `TrainArrival.__eq__`: equality is over `(minutes_until_arrival, train_id)`
only (src/subway_service.py lines 19-23). -/
def trainArrivalEq (a b : TrainArrival) : Bool :=
  a.minutes_until_arrival == b.minutes_until_arrival && a.train_id == b.train_id

/-- Python `==` lifted to `Optional[TrainArrival]`: `None == None` is `True`,
`None == TrainArrival` is `False` (the dataclass `__eq__` returns `False` for
non-`TrainArrival` operands), and two arrivals compare via `__eq__`. -/
def optTrainArrivalEq : Option TrainArrival → Option TrainArrival → Bool
  | some a, some b => trainArrivalEq a b
  | none, none => true
  | _, _ => false

/-! ## src/subway_service.py — SubwayService -/

/-- The mutable service state relevant to the polling loop:
`self._current_trains` (initially `[]`). -/
structure SubwayState where
  current_trains : List TrainArrival
deriving DecidableEq, Repr

/-- Stable insertion used to model Python `sorted(..., key=minutes_until_arrival)`
(src/subway_service.py line 156): an element is placed before the first
element with a strictly larger key, preserving the original order of ties. -/
def insert_by_minutes (a : TrainArrival) : List TrainArrival → List TrainArrival
  | [] => [a]
  | b :: bs =>
    if b.minutes_until_arrival < a.minutes_until_arrival then
      b :: insert_by_minutes a bs
    else a :: b :: bs

def sort_by_minutes (l : List TrainArrival) : List TrainArrival :=
  l.foldr insert_by_minutes []

/-- Model of `SubwayService.get_upcoming_trains` (src/subway_service.py lines 97-162).
The GTFS feed fetch and per-trip processing are external collaborators; the
`fetch` argument stands for the processed arrival list they yield, or the
exception they raise.  The whole body is wrapped in `try/except Exception`
which logs and `return []` — so a fetch failure yields the empty list, not a
propagated exception. -/
def get_upcoming_trains (fetch : Except String (List TrainArrival)) : List TrainArrival :=
  match fetch with
  | Except.ok arrivals => sort_by_minutes arrivals
  | Except.error _ => []

/-- Model of `SubwayService._should_notify` (src/subway_service.py lines 62-74).
`if not self._current_trains or not new_trains: return True` — an empty list
is falsy in Python.  The loop walks `range(min(2, len(new_trains)))`; inside
the range, `i < new_trains.length`, so the `getD` default is never read. -/
def should_notify (current new_trains : List TrainArrival) : Bool :=
  if current.isEmpty || new_trains.isEmpty then true
  else
    (List.range (min 2 new_trains.length)).any fun i =>
      decide (current.length ≤ i) ||
        !trainArrivalEq (new_trains.getD i default) (current.getD i default)

/-- One iteration of `SubwayService._update_loop` (src/subway_service.py
lines 76-87): fetch, and if `_should_notify`, replace the cache and notify
subscribers (the returned `Option` is the payload handed to subscribers,
`none` when no notification happens). -/
def subwayLoopStep (st : SubwayState) (fetch : Except String (List TrainArrival)) :
    SubwayState × Option (List TrainArrival) :=
  let new_trains := get_upcoming_trains fetch
  if should_notify st.current_trains new_trains then
    ({ current_trains := new_trains }, some new_trains)
  else (st, none)

/-- Model of `SubwayService.subscribe` (src/subway_service.py lines 36-40): the result
is the payload the new subscriber is immediately invoked with, if any.
`if self._current_trains:` — an empty list is falsy, so a cached empty list
triggers no catch-up call. -/
def subway_subscribe (current_trains : List TrainArrival) : Option (List TrainArrival) :=
  if current_trains.isEmpty then none else some current_trains

/-- A concrete arrival used in closed counterexamples and witnesses. -/
def sampleTrain : TrainArrival :=
  { minutes_until_arrival := 5, arrival_time := "08:30 AM", train_id := "A1", route_id := "F" }

/-! ## src/weather_service.py — WeatherService

The weather payloads are opaque structured dicts; per the spec only their
identity (Python dict equality) matters to the coordination core.  Two dict
shapes flow through the service:

* the *raw* Open-Meteo response, which `get_weather` requires to contain the
  keys `"hourly"` and `"daily"` (it indexes both), and
* the *transformed* dict built by `get_weather`, whose key set is exactly
  `{"current", "forecast", "hourly", "commute_forecasts"}` — in particular
  it has no `"daily"` key.

Python dict equality requires equal key sets, so a raw response and a
transformed dict are never `==`.  The embedding keeps the two shapes as two
structures wrapped in one sum type whose derived equality makes cross-shape
values unequal, which is exactly the Python behaviour; the field contents
are abbreviated (the spec treats the payload as opaque). -/

/-- Raw Open-Meteo response: must carry `hourly` and `daily` blocks. -/
structure RawWeather where
  hourly : List Int
  daily : List Int
deriving DecidableEq, Repr

/-- The transformed dict returned by `WeatherService.get_weather`
(src/weather_service.py lines 236-243): keys `current`, `forecast`
(`forecastday`), `hourly`, `commute_forecasts`. -/
structure TransformedWeather where
  current : Int
  forecastday : List Int
  hourly : List Int
  commute_forecasts : List Int
deriving DecidableEq, Repr

/-- A Python dict value stored in `self._current_data`: either the raw API
response or the transformed dict.  Derived equality never identifies the two
shapes, matching Python dict equality (their key sets differ). -/
inductive WeatherDict where
  | raw (r : RawWeather)
  | transformed (t : TransformedWeather)
deriving DecidableEq, Repr

/-- The payload transformation performed by `get_weather` (the meteorological
mapping itself is out of the core's scope; what matters is that the result is
a dict of the transformed shape built from the raw data). -/
def get_weather_transform (d : RawWeather) : TransformedWeather :=
  { current := d.hourly.headD 0
    forecastday := d.daily
    hourly := d.hourly
    commute_forecasts := [] }

/-- Mutable weather-service state: `self._current_data` (initially `None`). -/
structure WeatherServiceState where
  current_data : Option WeatherDict
deriving DecidableEq, Repr

/-- Model of `WeatherService.get_weather` (src/weather_service.py lines 198-253): on a
successful fetch it stores the RAW response into `self._current_data`
(line 246) and returns the TRANSFORMED dict; on failure it logs and
re-raises, leaving the state unchanged. -/
def weather_get_weather (st : WeatherServiceState) (fetch : Except String RawWeather) :
    WeatherServiceState × Except String TransformedWeather :=
  match fetch with
  | Except.error e => (st, Except.error e)
  | Except.ok data =>
    ({ current_data := some (WeatherDict.raw data) }, Except.ok (get_weather_transform data))

/-- One iteration of `WeatherService._update_loop` (src/weather_service.py
lines 45-56): call `get_weather`; on an exception, log and continue; on
success, `if weather_data != self._current_data:` store the transformed dict
and notify (`Option` result is the payload handed to subscribers).  A dict is
never `==` to `None`, hence the `Option`-level comparison. -/
def weatherLoopStep (st : WeatherServiceState) (fetch : Except String RawWeather) :
    WeatherServiceState × Option TransformedWeather :=
  match weather_get_weather st fetch with
  | (st1, Except.error _) => (st1, none)
  | (st1, Except.ok weather_data) =>
    if (some (WeatherDict.transformed weather_data) : Option WeatherDict) ≠ st1.current_data then
      ({ current_data := some (WeatherDict.transformed weather_data) }, some weather_data)
    else (st1, none)

/-- Model of `WeatherService.subscribe` (src/weather_service.py lines 19-23): result is
the catch-up payload for the new subscriber.  `if self._current_data:` — the
cached dict, when set, is a raw response or transformed dict, both non-empty,
so truthiness coincides with being set. -/
def weather_subscribe (current_data : Option WeatherDict) : Option WeatherDict :=
  match current_data with
  | some d => some d
  | none => none

/-- A concrete raw payload for closed counterexamples and witnesses. -/
def sampleRaw : RawWeather := { hourly := [70, 71], daily := [65] }

/-! ## src/runner.py — DisplayState and Runner -/

/-- The flags of one `self.display.update(...)` invocation issued by
`Runner._update_display` (src/runner.py lines 152-157): the runner always
passes `partial=True` and `clear` as given. -/
structure DisplayCall where
  part : Bool
  clear : Bool
deriving DecidableEq, Repr

/-- The `DisplayState` dataclass (src/runner.py lines 46-52) together with the runner's own
`self._previous_top_trains` (line 60).  Timestamps are `Int` seconds,
initially `0` as in the dataclass defaults. -/
structure RunnerState where
  weather_data : Option TransformedWeather
  train_data : Option (List TrainArrival)
  last_display_update : Int
  last_weather_change : Int
  last_display_clear : Int
  previous_top_trains : Option TrainArrival × Option TrainArrival
deriving DecidableEq, Repr

/-- The initial runner state (dataclass defaults, `(None, None)` top trains). -/
def initRunnerState : RunnerState :=
  { weather_data := none
    train_data := none
    last_display_update := 0
    last_weather_change := 0
    last_display_clear := 0
    previous_top_trains := (none, none) }

/-- The constant `self.min_interval = 1` (src/runner.py line 59). -/
def min_interval : Int := 1

/-- Model of `Runner._get_top_two_trains` (src/runner.py lines 91-96). -/
def get_top_two_trains (trains : List TrainArrival) :
    Option TrainArrival × Option TrainArrival :=
  (trains.head?, (trains.drop 1).head?)

/-- The body of the positional comparison in `_has_significant_change`
(src/runner.py lines 106-112): when both are present, compare `train_id` and
`minutes_until_arrival`; `elif prev != curr` fires exactly when one side is
`None` and the other is not (`None != None` is `False`). -/
def top_pair_changed : Option TrainArrival → Option TrainArrival → Bool
  | some p, some c =>
    p.train_id != c.train_id || p.minutes_until_arrival != c.minutes_until_arrival
  | none, none => false
  | _, _ => true

/-- Model of `Runner._has_significant_change` (src/runner.py lines 98-114).
`not self._previous_top_trains[0]` is `isNone` (a dataclass instance is
always truthy). -/
def has_significant_change
    (previous_top_trains current_trains : Option TrainArrival × Option TrainArrival) : Bool :=
  if previous_top_trains.1.isNone && current_trains.1.isSome then true
  else if current_trains.1.isNone then true
  else
    top_pair_changed previous_top_trains.1 current_trains.1 ||
      top_pair_changed previous_top_trains.2 current_trains.2

/-- Model of `Runner._update_display` (src/runner.py lines 148-166).  The display call
(`self.display.update`, modelled by its outcome `dr`) is issued first, inside
the `try`; only after it returns do the bookkeeping assignments run, so when
it raises, the state is returned untouched (the `except` only logs).
`now` stands for the `time.time()` calls on lines 160 and 162. -/
def update_display (s : RunnerState) (now : Int) (clear : Bool) (dr : Except String Unit) :
    RunnerState × Option DisplayCall :=
  match dr with
  | Except.error _ => (s, some { part := true, clear := clear })
  | Except.ok _ =>
    ({ s with
        last_display_clear := if clear then now else s.last_display_clear
        last_display_update := now
        previous_top_trains := get_top_two_trains (s.train_data.getD []) },
      some { part := true, clear := clear })

/-- Model of `Runner._check_display_update` (src/runner.py lines 116-146).
`not self.state.weather_data` — the weather dict handed to the runner is the
transformed dict (four keys, never empty), so truthiness is `isSome`;
`self.state.train_data is None` is `isNone`.  Note that inside the hourly
branch the `return` sits outside the `minute == 0` test: past 3500s with a
nonzero minute nothing happens (the min-interval check is not reached). -/
def check_display_update (s : RunnerState) (now : Int) (minute : Nat) (force : Bool)
    (dr : Except String Unit) : RunnerState × Option DisplayCall :=
  if s.weather_data.isNone || s.train_data.isNone then (s, none)
  else if s.last_display_update = 0 then update_display s now false dr
  else if force then update_display s now false dr
  else if 3500 ≤ now - s.last_display_clear then
    (if minute = 0 then update_display s now true dr else (s, none))
  else if min_interval ≤ now - s.last_display_update then update_display s now false dr
  else (s, none)

/-- Model of `Runner.handle_weather_update` (src/runner.py lines 62-67). -/
def handle_weather_update (s : RunnerState) (w : TransformedWeather) (now : Int)
    (minute : Nat) (dr : Except String Unit) : RunnerState × Option DisplayCall :=
  let s1 := { s with weather_data := some w, last_weather_change := now,
                     last_display_clear := now }
  check_display_update s1 now minute false dr

/-- Model of `Runner.handle_train_update` (src/runner.py lines 69-89): store the
trains, compare the current top two against `self._previous_top_trains`,
and evaluate with `force` set to the detector's verdict. -/
def handle_train_update (s : RunnerState) (trains : List TrainArrival) (now : Int)
    (minute : Nat) (dr : Except String Unit) : RunnerState × Option DisplayCall :=
  let s1 := { s with train_data := some trains }
  let current_top := get_top_two_trains trains
  if has_significant_change s1.previous_top_trains current_top then
    check_display_update s1 now minute true dr
  else
    check_display_update s1 now minute false dr

/-- The three scheduler event kinds: a weather notification, a transit
notification, and the 1-second heartbeat of `Runner.run`
(src/runner.py lines 186-188). -/
inductive RunnerEvent where
  | weather (w : TransformedWeather)
  | train (trains : List TrainArrival)
  | heartbeat
deriving Repr

/-- One scheduler event dispatch. -/
def runnerStep (s : RunnerState) (e : RunnerEvent) (now : Int) (minute : Nat)
    (dr : Except String Unit) : RunnerState × Option DisplayCall :=
  match e with
  | RunnerEvent.weather w => handle_weather_update s w now minute dr
  | RunnerEvent.train trains => handle_train_update s trains now minute dr
  | RunnerEvent.heartbeat => check_display_update s now minute false dr

/-! ## src/display.py — EInkDisplay hardware-write policy -/

/-- A bitmap as a grid of pixel values (rows of grayscale pixels).  All
frames rendered by the runner share the panel dimensions, as
`ImageChops.difference` requires. -/
def PixImage : Type := List (List Nat)

/-- Column indices at which two pixel rows differ (`ImageChops.difference`
yields `|p - q|`, non-zero exactly where the pixels differ). -/
def row_diff_cols : Nat → List Nat → List Nat → List Nat
  | _, [], _ => []
  | _, _ :: _, [] => []
  | x, p :: ps, q :: qs =>
    if p = q then row_diff_cols (x + 1) ps qs
    else x :: row_diff_cols (x + 1) ps qs

/-- Coordinates `(x, y)` of all differing pixels of two images. -/
def diff_coords : Nat → PixImage → PixImage → List (Nat × Nat)
  | _, [], _ => []
  | _, _ :: _, [] => []
  | y, r1 :: rs1, r2 :: rs2 =>
    (row_diff_cols 0 r1 r2).map (fun x => (x, y)) ++ diff_coords (y + 1) rs1 rs2

/-- Model of `EInkDisplay._get_diff_box` (src/display.py lines 125-128):
`ImageChops.difference(img1, img2).getbbox()` — `None` when the images are
identical, otherwise the PIL box `(left, upper, right, lower)` with exclusive
right/lower bounds around the non-zero difference region. -/
def get_diff_box (img1 img2 : PixImage) : Option (Nat × Nat × Nat × Nat) :=
  match diff_coords 0 img1 img2 with
  | [] => none
  | c :: cs =>
    let xs := (c :: cs).map Prod.fst
    let ys := (c :: cs).map Prod.snd
    some (xs.foldl min c.1, ys.foldl min c.2,
          xs.foldl max c.1 + 1, ys.foldl max c.2 + 1)

/-- The physical write performed by one `EInkDisplay.update` call: either a
partial write scoped to a box (`_update_partial_display`) or a full-frame
write, preceded by a hardware clear when its flag is set (`_update_display`). -/
inductive WriteAction where
  | regionWrite (box : Nat × Nat × Nat × Nat)
  | fullWrite (clear : Bool)
deriving DecidableEq, Repr

/-- Model of `EInkDisplay.update` (src/display.py lines 130-155): compute the diff box
against `self.previous_image` (none on the first write); discard the box when
its width or height exceeds 50px (forcing a full update); write partially
only when `partial` was requested and a box survives.  Boxes produced by
`get_diff_box` have `right > left` and `lower > upper`, so the `Nat`
subtractions below agree with Python integer subtraction. -/
def eink_update (previous_image : Option PixImage) (img : PixImage)
    (part clear : Bool) : WriteAction :=
  let box0 : Option (Nat × Nat × Nat × Nat) :=
    match previous_image with
    | some prev => get_diff_box prev img
    | none => none
  let box1 : Option (Nat × Nat × Nat × Nat) :=
    match box0 with
    | some (l, u, r, b) =>
      if 50 < r - l || 50 < b - u then none else some (l, u, r, b)
    | none => none
  match part, box1 with
  | true, some box => WriteAction.regionWrite box
  | _, _ => WriteAction.fullWrite clear

/-! ## src/display.py — Display render sink (one-slot mailbox) -/

/-- A rendered frame queued for the writer: the bitmap from `getImage`
plus the `partial`/`clear` flags (src/display.py line 194). -/
structure Frame where
  img : PixImage
  part : Bool
  clear : Bool

/-- The sink's single slot: `self.next_frame` (initially `None`). -/
structure SinkState where
  next_frame : Option Frame

/-- Model of `Display.update` (src/display.py lines 189-199): render and store into the
slot, unconditionally overwriting whatever was pending. -/
def display_submit (_st : SinkState) (f : Frame) : SinkState :=
  { next_frame := some f }

/-- One tick of `Display._process_queue` (src/display.py lines 176-187): if
the slot holds a frame, perform the hardware write for it (the returned
`Option Frame` is the frame written this tick) and empty the slot. -/
def process_queue_step (st : SinkState) : SinkState × Option Frame :=
  match st.next_frame with
  | some f => ({ next_frame := none }, some f)
  | none => (st, none)

/-- A concrete runner state in which both data fields are populated and a
first redraw has happened (`last_display_update = 100`, `last_display_clear
= 0`), used by closed counterexamples and witnesses. -/
def sampleReadyState : RunnerState :=
  { weather_data := some (get_weather_transform sampleRaw)
    train_data := some [sampleTrain]
    last_display_update := 100
    last_weather_change := 0
    last_display_clear := 0
    previous_top_trains := (none, none) }

/-! ## Helper lemmas -/

/-- The function `check_display_update` never touches the `weather_data`/`train_data`
fields: the only state writes on any of its paths are the timestamp and
top-two bookkeeping of `_update_display`. -/
theorem check_display_update_preserves_data (s : RunnerState) (now : Int) (minute : Nat)
    (force : Bool) (dr : Except String Unit) :
    (check_display_update s now minute force dr).1.weather_data = s.weather_data ∧
    (check_display_update s now minute force dr).1.train_data = s.train_data := by
  unfold check_display_update update_display
  split_ifs <;> cases dr <;> simp

/-- The cold-start gate of `_check_display_update` (src/runner.py lines
120-122): with either field unset, the call returns without any display
activity. -/
theorem check_display_update_gate (s : RunnerState) (now : Int) (minute : Nat)
    (force : Bool) (dr : Except String Unit)
    (h : s.weather_data = none ∨ s.train_data = none) :
    check_display_update s now minute force dr = (s, none) := by
  unfold check_display_update
  rcases h with h | h <;> simp [h]

/-! ## Claim theorems -/

/-- C1 counterexample: with one train cached and the fetch raising, the loop
iteration replaces the cache by the empty list and notifies subscribers with
the empty list — contradicting the claim that the cached list is left
unchanged and that subscribers are not notified with blanked data. -/
theorem subway_fetch_error_counterexample :
    (subwayLoopStep { current_trains := [sampleTrain] }
        (Except.error "network error")).1.current_trains ≠ [sampleTrain] ∧
    (subwayLoopStep { current_trains := [sampleTrain] }
        (Except.error "network error")).2 = some [] := by
  decide

/-- C1 (amended): on a failed fetch, `get_upcoming_trains` catches the
exception, logs it and returns `[]`; the loop iteration then (because
`_should_notify` returns `True` for an empty new list) replaces the cached
train list by the empty list and notifies subscribers with the empty list.
The loop itself continues at the same interval — the error never escapes the
iteration, as witnessed by this total step function. -/
theorem subway_fetch_error_blanks_cache_and_notifies
    (st : SubwayState) (e : String) :
    subwayLoopStep st (Except.error e) = ({ current_trains := [] }, some []) := by
  simp [subwayLoopStep, get_upcoming_trains, should_notify]

/-- C3 (code bug): every successful weather poll notifies subscribers,
whatever the previous state — in particular a second successful poll
returning a payload structurally identical to the first one still produces a
second notification.  The cause: `get_weather` stores the *raw* API response
in `self._current_data` (src/weather_service.py line 246) while the update
loop compares the *transformed* dict it returned against that field, and the
two dict shapes are never equal, so the loop's `# Only notify if data
changed` comparison is always true. -/
theorem weather_every_successful_poll_notifies
    (st : WeatherServiceState) (d : RawWeather) :
    (weatherLoopStep st (Except.ok d)).2 = some (get_weather_transform d) := by
  simp [weatherLoopStep, weather_get_weather]

/-- C4 counterexample: with no previous and no current trains — pairs that
are identical position-by-position — `_has_significant_change` returns
`True` (the `if not current_trains[0]` branch, src/runner.py lines 102-103),
not `False` as claimed. -/
theorem has_significant_change_both_empty_counterexample :
    has_significant_change (none, none) (none, none) = true := by
  decide

/-- C4 (amended): whenever the previous and current top-two pairs agree
position-by-position under the `(train_id, minutes_until_arrival)` equality
and the current pair has a first train, the detector returns `False`; when
the current pair has no first train (in particular when both sides are
empty) it returns `True` instead. -/
theorem has_significant_change_identical_pairs_false
    (p c : Option TrainArrival × Option TrainArrival)
    (h1 : optTrainArrivalEq p.1 c.1 = true)
    (h2 : optTrainArrivalEq p.2 c.2 = true)
    (h3 : c.1.isSome = true) :
    has_significant_change p c = false := by
  obtain ⟨p1, p2⟩ := p
  obtain ⟨c1, c2⟩ := c
  cases c1 with
  | none => simp at h3
  | some c1 =>
    cases p1 with
    | none => simp [optTrainArrivalEq] at h1
    | some p1 =>
      cases p2 <;> cases c2 <;>
        simp_all [optTrainArrivalEq, trainArrivalEq, has_significant_change,
          top_pair_changed]

/-- Witness for C4's amended theorem at a concrete identical pair. -/
theorem has_significant_change_identical_pairs_false_witness :
    has_significant_change (some sampleTrain, none) (some sampleTrain, none) = false :=
  has_significant_change_identical_pairs_false
    (some sampleTrain, none) (some sampleTrain, none)
    (by decide) (by decide) (by decide)

/-- C8: submitting frames F1 then F2 before the writer drains leaves only F2
pending; the next writer tick performs exactly one hardware write, for F2,
and the tick after that writes nothing (F1 was silently dropped). -/
theorem render_sink_coalesces_to_latest_frame (st : SinkState) (f1 f2 : Frame) :
    process_queue_step (display_submit (display_submit st f1) f2) =
      ({ next_frame := none }, some f2) ∧
    process_queue_step
        (process_queue_step (display_submit (display_submit st f1) f2)).1 =
      ({ next_frame := none }, none) := by
  exact ⟨rfl, rfl⟩

/-- C9 counterexample: with train data fetched at least once but the most
recent value the empty list, `SubwayService.subscribe` does *not* invoke the
new subscriber (`if self._current_trains:` is falsy on `[]`), contradicting
the claim that the callback is invoked with the cached value. -/
theorem subscribe_empty_cache_counterexample :
    subway_subscribe ([] : List TrainArrival) = none ∧
    subway_subscribe ([] : List TrainArrival) ≠ some [] := by
  decide

/-- C9 (amended): a new subscriber is immediately invoked exactly once with
the cached value when that value is truthy — a non-empty train list for the
transit producer, a set dict for the weather producer — and is not invoked
when the transit cache is the empty list (or when nothing was fetched yet). -/
theorem subscribe_catchup_iff_truthy_cache (ts : List TrainArrival) (d : WeatherDict) :
    (ts ≠ [] → subway_subscribe ts = some ts) ∧
    subway_subscribe [] = none ∧
    weather_subscribe (some d) = some d ∧
    weather_subscribe none = none := by
  refine ⟨fun h => ?_, rfl, rfl, rfl⟩
  simp [subway_subscribe, h]

/-- Witness for C9's amended theorem at concrete caches. -/
theorem subscribe_catchup_iff_truthy_cache_witness :
    subway_subscribe [sampleTrain] = some [sampleTrain] ∧
    subway_subscribe [] = none :=
  ⟨(subscribe_catchup_iff_truthy_cache [sampleTrain] (WeatherDict.raw sampleRaw)).1
      (by decide),
   (subscribe_catchup_iff_truthy_cache [sampleTrain] (WeatherDict.raw sampleRaw)).2.1⟩

/-- C10: when the display update call raises, `_update_display` catches the
exception after none of its bookkeeping assignments have run, so the runner
state — `last_display_update`, `last_display_clear`, `previous_top_trains`
and everything else — is exactly what it was before the attempt, on every
path of `_check_display_update`. -/
theorem update_display_error_leaves_state_unchanged (s : RunnerState) (now : Int)
    (minute : Nat) (force : Bool) (e : String) :
    (check_display_update s now minute force (Except.error e)).1 = s := by
  unfold check_display_update update_display
  split_ifs <;> rfl

/-- C2 counterexample: both fields set, first redraw done
(`last_display_update = 100`), `last_display_clear = 0`; at `now = 4000`
with wall-clock minute 30 the hourly-clear condition does not hold (the
minute is nonzero) and `min_interval` has long elapsed, yet
`_check_display_update` performs no redraw at all — the `return` of the
3500s branch sits outside the `minute == 0` test, so the min-interval check
is never reached. -/
theorem stale_clear_nonzero_minute_counterexample :
    (check_display_update sampleReadyState 4000 30 false (Except.ok ())).2 = none ∧
    ¬ (3500 ≤ (4000 : Int) - sampleReadyState.last_display_clear ∧ (30 : Nat) = 0) ∧
    min_interval ≤ (4000 : Int) - sampleReadyState.last_display_update := by
  refine ⟨by decide, by decide, by decide⟩

/-- C2 (amended): for a non-forced evaluation after the first redraw, if
less than 3500s have passed since `last_display_clear` and at least
`min_interval` since `last_display_update`, the scheduler redraws with
`partial=true`, `clear=false`; but once 3500s have passed since
`last_display_clear` and the wall-clock minute is nonzero, the evaluation is
a no-op — no redraw occurs until a minute-zero evaluation resets the clear
clock. -/
theorem min_interval_redraw_requires_fresh_clear (s : RunnerState) (now : Int)
    (minute : Nat) (dr : Except String Unit)
    (hw : s.weather_data.isSome = true) (ht : s.train_data.isSome = true)
    (hu : s.last_display_update ≠ 0) :
    (now - s.last_display_clear < 3500 → min_interval ≤ now - s.last_display_update →
      (check_display_update s now minute false dr).2 =
        some { part := true, clear := false }) ∧
    (3500 ≤ now - s.last_display_clear → minute ≠ 0 →
      check_display_update s now minute false dr = (s, none)) := by
  obtain ⟨w, hw2⟩ := Option.isSome_iff_exists.mp hw
  obtain ⟨t, ht2⟩ := Option.isSome_iff_exists.mp ht
  unfold check_display_update update_display
  rw [hw2, ht2]
  constructor
  · intro hclear hupd
    rw [if_neg (by simp), if_neg hu, if_neg (by simp), if_neg (by omega),
      if_pos hupd]
    cases dr <;> rfl
  · intro hclear hmin
    rw [if_neg (by simp), if_neg hu, if_neg (by simp), if_pos hclear,
      if_neg hmin]

/-- Witness for C2's amended theorem: from `sampleReadyState`, a non-forced
evaluation at `now = 3000`, minute 30 (clear clock fresh, min-interval
elapsed) redraws partially without clearing, while one at `now = 4000`,
minute 30 (clear clock stale, minute nonzero) is a no-op. -/
theorem min_interval_redraw_requires_fresh_clear_witness :
    (check_display_update sampleReadyState 3000 30 false (Except.ok ())).2 =
      some { part := true, clear := false } ∧
    check_display_update sampleReadyState 4000 30 false (Except.ok ()) =
      (sampleReadyState, none) := by
  constructor
  · exact (min_interval_redraw_requires_fresh_clear sampleReadyState 3000 30
      (Except.ok ()) (by decide) (by decide) (by decide)).1 (by decide) (by decide)
  · exact (min_interval_redraw_requires_fresh_clear sampleReadyState 4000 30
      (Except.ok ()) (by decide) (by decide) (by decide)).2 (by decide) (by decide)

/-- C5: cold-start gating.  No scheduler event produces a display call while
either `weather_data` or `train_data` is still unset after the event: since
events only ever populate these fields (never unset them), any event
arriving before both have been set at least once is a no-op with respect to
the display, for every event sequence. -/
theorem scheduler_cold_start_gate (s : RunnerState) (e : RunnerEvent) (now : Int)
    (minute : Nat) (dr : Except String Unit)
    (h : (runnerStep s e now minute dr).1.weather_data = none ∨
         (runnerStep s e now minute dr).1.train_data = none) :
    (runnerStep s e now minute dr).2 = none := by
  cases e with
  | weather w =>
    simp only [runnerStep, handle_weather_update] at h ⊢
    obtain ⟨hw, ht⟩ := check_display_update_preserves_data
      { s with weather_data := some w, last_weather_change := now,
               last_display_clear := now } now minute false dr
    rcases h with h | h
    · rw [hw] at h; simp at h
    · rw [ht] at h
      rw [check_display_update_gate _ now minute false dr (Or.inr h)]
  | train ts =>
    simp only [runnerStep, handle_train_update] at h ⊢
    by_cases hsig : has_significant_change
        ({ s with train_data := some ts } : RunnerState).previous_top_trains
        (get_top_two_trains ts) = true
    · rw [if_pos hsig] at h ⊢
      obtain ⟨hw, ht⟩ := check_display_update_preserves_data
        { s with train_data := some ts } now minute true dr
      rcases h with h | h
      · rw [hw] at h
        rw [check_display_update_gate _ now minute true dr (Or.inl h)]
      · rw [ht] at h; simp at h
    · rw [if_neg hsig] at h ⊢
      obtain ⟨hw2, ht2⟩ := check_display_update_preserves_data
        { s with train_data := some ts } now minute false dr
      rcases h with h | h
      · rw [hw2] at h
        rw [check_display_update_gate _ now minute false dr (Or.inl h)]
      · rw [ht2] at h; simp at h
  | heartbeat =>
    simp only [runnerStep] at h ⊢
    obtain ⟨hw, ht⟩ := check_display_update_preserves_data s now minute false dr
    rw [hw, ht] at h
    rw [check_display_update_gate s now minute false dr h]

/-- Witness for C5 at the initial state: a heartbeat before any data is a
display no-op. -/
theorem scheduler_cold_start_gate_witness :
    (runnerStep initRunnerState RunnerEvent.heartbeat 100 0 (Except.ok ())).2 = none :=
  scheduler_cold_start_gate initRunnerState RunnerEvent.heartbeat 100 0
    (Except.ok ()) (Or.inl (by decide))

/-- C6: with both fields set and the first redraw done, a forced evaluation
redraws immediately with `partial=true`, `clear=false`, for every `now` and
wall-clock minute — in particular even when the hourly-clear condition
(3500s elapsed and minute zero) holds, because `force` short-circuits the
hourly branch; accordingly `last_display_clear` is not reset that cycle. -/
theorem forced_redraw_partial_no_clear (s : RunnerState) (now : Int) (minute : Nat)
    (dr : Except String Unit)
    (hw : s.weather_data.isSome = true) (ht : s.train_data.isSome = true)
    (hu : s.last_display_update ≠ 0) :
    (check_display_update s now minute true dr).2 =
      some { part := true, clear := false } ∧
    (check_display_update s now minute true dr).1.last_display_clear =
      s.last_display_clear := by
  obtain ⟨w, hw2⟩ := Option.isSome_iff_exists.mp hw
  obtain ⟨t, ht2⟩ := Option.isSome_iff_exists.mp ht
  unfold check_display_update update_display
  rw [hw2, ht2]
  rw [if_neg (by simp), if_neg hu, if_pos rfl]
  cases dr <;> simp

/-- Witness for C6 at a moment where the hourly-clear condition holds
(`now = 7200`, clear clock at 0, minute 0): the forced redraw is still
partial and does not clear, and the clear clock is untouched. -/
theorem forced_redraw_partial_no_clear_witness :
    (check_display_update sampleReadyState 7200 0 true (Except.ok ())).2 =
      some { part := true, clear := false } ∧
    (check_display_update sampleReadyState 7200 0 true (Except.ok ())).1.last_display_clear =
      sampleReadyState.last_display_clear :=
  forced_redraw_partial_no_clear sampleReadyState 7200 0 (Except.ok ())
    (by decide) (by decide) (by decide)

/-- C7: for a previously written bitmap `P` and a new bitmap `N` whose pixel
differences have bounding box `(l, u, r, b)`: when the box is at most 50px
in both width and height and `partial=true` was requested, the write is
scoped to exactly that box; when it exceeds 50px in either dimension, a
full-frame write happens even though `partial=true`. -/
theorem eink_partial_write_policy (P N : PixImage) (l u r b : Nat) (clear : Bool)
    (hbox : get_diff_box P N = some (l, u, r, b)) :
    ((r - l ≤ 50 ∧ b - u ≤ 50) →
      eink_update (some P) N true clear = WriteAction.regionWrite (l, u, r, b)) ∧
    ((50 < r - l ∨ 50 < b - u) →
      eink_update (some P) N true clear = WriteAction.fullWrite clear) := by
  constructor
  · rintro ⟨h1, h2⟩
    simp [eink_update, hbox, Nat.not_lt.mpr h1, Nat.not_lt.mpr h2]
  · rintro (h | h) <;> simp [eink_update, hbox, h]

/-- Witness for C7: a 2×2 pair differing in one pixel (box 1×1) gets a
region write scoped to that box; a 52×1 pair differing at both ends (box
52×1) gets a full write despite `partial=true`. -/
theorem eink_partial_write_policy_witness :
    eink_update (some [[0, 0], [0, 0]]) [[1, 0], [0, 0]] true false =
      WriteAction.regionWrite (0, 0, 1, 1) ∧
    eink_update (some [List.replicate 52 0]) [1 :: (List.replicate 50 0 ++ [1])]
        true false = WriteAction.fullWrite false := by
  constructor
  · exact (eink_partial_write_policy [[0, 0], [0, 0]] [[1, 0], [0, 0]] 0 0 1 1 false
      (by decide)).1 (by decide)
  · exact (eink_partial_write_policy [List.replicate 52 0]
      [1 :: (List.replicate 50 0 ++ [1])] 0 0 52 1 false (by decide)).2 (by decide)
